import Mathlib

/-!
Shallow embedding of `asks/request.py` (the `Request` class: request
building, query/form codec, multipart encoder, redirect and
authentication state machines, response consumption) together with
theorems checking the specification's claims against it.

Conventions of the embedding:
* Python strings and byte strings are modelled as Lean `String`
  (all inputs exercised here are ASCII; where byte length matters it is
  noted at the definition).
* Python `None` becomes `Option.none`; falsiness is modelled explicitly
  where the source relies on it.
* Mutation of `self` becomes explicit state passing of a `ReqState`
  record; Python exceptions become an error result carrying the state at
  raise time (the `self` object survives the exception in Python).
* External collaborators (h11 wire codec, socket, session pool, stdlib
  `urllib.parse` / `mimetypes`) are modelled explicitly; the stdlib
  functions are embedded for the subset of inputs the source exercises,
  and the session pool follows the spec's collaborator contract.
-/

namespace Asks

/-! ## Small Python string helpers -/

/-- ASCII lower-casing of a character, as Python `str.lower` does on ASCII. -/
def lowerChar (c : Char) : Char :=
  if 'A' ≤ c ∧ c ≤ 'Z' then Char.ofNat (c.toNat + 32) else c

/-- ASCII lower-casing of a string. -/
def lowerStr (s : String) : String :=
  String.mk (s.data.map lowerChar)

/-- Python `str.strip()` whitespace set (ASCII subset used here). -/
def isPySpace (c : Char) : Bool :=
  c = ' ' ∨ c = '\t' ∨ c = '\n' ∨ c = '\r' ∨ c = '\x0b' ∨ c = '\x0c'

/-- Drop leading whitespace from a character list. -/
def dropSpaceLeft : List Char → List Char
  | [] => []
  | c :: cs => if isPySpace c then dropSpaceLeft cs else c :: cs

/-- Python `str.strip()` on both ends. -/
def pyStrip (s : String) : String :=
  String.mk ((dropSpaceLeft (dropSpaceLeft s.data).reverse).reverse)

/-- Python `str.split()` with no argument: split on whitespace runs,
discarding empty pieces. -/
def pySplitWs (s : String) : List String :=
  ((s.data.splitOnP (fun c => isPySpace c)).map String.mk).filter (fun t => t ≠ "")

/-- Python `'+'.join(xs)`. -/
def joinWith (sep : String) : List String → String
  | [] => ""
  | [x] => x
  | x :: xs => x ++ sep ++ joinWith sep xs

/-- Case-insensitive lookup in an association list, modelling
`CaseInsensitiveDict.__getitem__` / `in` (the dict raises `KeyError` on a
missing key, as the source's `try/except KeyError` blocks around its
lookups show; here the lookup is `Option`-valued and the caller decides). -/
def ciFind {α : Type} (hs : List (String × α)) (k : String) : Option α :=
  (hs.find? (fun p => lowerStr p.1 = lowerStr k)).map (fun p => p.2)

/-- Case-insensitive store into an association list, modelling
`CaseInsensitiveDict.__setitem__`: an existing entry (compared
case-insensitively) has its value replaced in place, otherwise the new
pair is appended. -/
def ciStore {α : Type} (hs : List (String × α)) (k : String) (v : α) :
    List (String × α) :=
  if (hs.find? (fun p => lowerStr p.1 = lowerStr k)).isSome then
    hs.map (fun p => if lowerStr p.1 = lowerStr k then (p.1, v) else p)
  else
    hs ++ [(k, v)]

/-- Case-insensitive bulk update, modelling `CaseInsensitiveDict.update`. -/
def ciUpdate {α : Type} (hs upd : List (String × α)) : List (String × α) :=
  upd.foldl (fun acc p => ciStore acc p.1 p.2) hs

/-- Plain Python `dict` merge `{**a, **b}`: entries of `b` override same
keys of `a` (case-sensitively), order of first insertion kept. -/
def dictMerge {α : Type} (a b : List (String × α)) : List (String × α) :=
  b.foldl (fun acc p =>
    if (acc.find? (fun q => q.1 = p.1)).isSome then
      acc.map (fun q => if q.1 = p.1 then (q.1, p.2) else q)
    else acc ++ [p]) a

/-- Python `os.path.basename` for POSIX paths: the part after the last
slash. -/
def pyBasename (p : String) : String :=
  match (p.data.splitOnP (fun c => c = '/')).reverse with
  | [] => ""
  | last :: _ => String.mk last

/-- Python `int(s)` for the strings this code meets: optional sign and
decimal digits, surrounding whitespace allowed; `none` models the
`ValueError` raised otherwise. -/
def pyInt (s : String) : Option Int :=
  let t := pyStrip s
  let core : Option (Bool × List Char) :=
    match t.data with
    | '-' :: rest => some (true, rest)
    | '+' :: rest => some (false, rest)
    | cs => some (false, cs)
  match core with
  | some (neg, ds) =>
    if ds = [] ∨ ¬ ds.all Char.isDigit then none
    else
      let n := ds.foldl (fun acc c => acc * 10 + (c.toNat - '0'.toNat)) 0
      some (if neg then -(n : Int) else (n : Int))
  | none => none

/-! ## `urllib.parse.quote` (UTF-8 percent-encoding) -/

/-- UTF-8 encoding of one character as its byte values. -/
def utf8Bytes (c : Char) : List Nat :=
  let n := c.toNat
  if n < 0x80 then [n]
  else if n < 0x800 then
    [0xC0 + n / 0x40, 0x80 + n % 0x40]
  else if n < 0x10000 then
    [0xE0 + n / 0x1000, 0x80 + (n / 0x40) % 0x40, 0x80 + n % 0x40]
  else
    [0xF0 + n / 0x40000, 0x80 + (n / 0x1000) % 0x40,
     0x80 + (n / 0x40) % 0x40, 0x80 + n % 0x40]

/-- Upper-case hex digit, as `quote` produces. -/
def hexDigit (n : Nat) : Char :=
  match n with
  | 0 => '0' | 1 => '1' | 2 => '2' | 3 => '3' | 4 => '4'
  | 5 => '5' | 6 => '6' | 7 => '7' | 8 => '8' | 9 => '9'
  | 10 => 'A' | 11 => 'B' | 12 => 'C' | 13 => 'D' | 14 => 'E'
  | _ => 'F'

/-- Bytes `quote` never escapes: ASCII letters, digits, `_.-~`. -/
def alwaysSafeByte (b : Nat) : Bool :=
  (0x41 ≤ b ∧ b ≤ 0x5A) ∨ (0x61 ≤ b ∧ b ≤ 0x7A) ∨ (0x30 ≤ b ∧ b ≤ 0x39) ∨
  b = '_'.toNat ∨ b = '.'.toNat ∨ b = '-'.toNat ∨ b = '~'.toNat

/-- One byte under `quote`: kept literally when safe, `%XY` otherwise. -/
def quoteByte (safe : List Char) (b : Nat) : List Char :=
  if alwaysSafeByte b ∨ safe.any (fun c => c.toNat = b) then [Char.ofNat b]
  else ['%', hexDigit (b / 16), hexDigit (b % 16)]

/-- `urllib.parse.quote(s.encode(enc), safe=...)` for UTF-8 input. -/
def pyQuote (safe : List Char) (s : String) : String :=
  String.mk ((s.data.flatMap utf8Bytes).flatMap (quoteByte safe))

/-! ## Values carried by Python query/body dictionaries -/

/-- Values a user may put in a `data`/`params`/`files` dictionary. -/
inductive QVal where
  | str (s : String)
  | num (n : Int)
  | list (elems : List QVal)
  | dict (entries : List (String × QVal))

/-- Python truthiness of a `QVal` (`if not v: continue`). -/
def QVal.truthy : QVal → Bool
  | .str s => s ≠ ""
  | .num n => n ≠ 0
  | .list [] => false
  | .list (_ :: _) => true
  | .dict [] => false
  | .dict (_ :: _) => true

/-- Python `str(v)` for the scalar values the codec joins. -/
def QVal.pyStr : QVal → String
  | .str s => s
  | .num n => toString n
  | .list _ => ""
  | .dict _ => ""

/-! ## The source module's constants -/

/-- Regex `\Aww.\.`: does the string start with `ww`, any character, `.`? -/
def wwxMatch (s : String) : Option String :=
  match s.data with
  | 'w' :: 'w' :: c :: '.' :: _ => some (String.mk ['w', 'w', c, '.'])
  | _ => none

/-! ## Python exceptions raised or caught by the source -/

/-- Python exceptions (and two modelling artifacts) that the embedded
code can raise. `outOfFuel` marks exhausted recursion fuel and `stuck`
an exhausted wire-event script; neither corresponds to a source
behaviour and no theorem relies on them. -/
inductive PyErr where
  | keyError
  | attributeError
  | typeError
  | valueError
  | assertionError
  | tooManyRedirects
  | outOfFuel
  | stuck
deriving DecidableEq, Repr

/-! ## `urllib.parse.urlparse` / `urlunparse`

Embedded for the URL shapes the source meets: absolute `http(s)` URLs
and relative references; the component split (scheme, netloc, path,
params, query, fragment) follows CPython's `urlsplit`/`_splitparams`. -/

/-- Split a character list at the first occurrence of `c` (excluded). -/
def splitAtFirst (c : Char) : List Char → Option (List Char × List Char)
  | [] => none
  | x :: xs =>
    if x = c then some ([], xs)
    else match splitAtFirst c xs with
      | some (pre, post) => some (x :: pre, post)
      | none => none

/-- Longest prefix free of the delimiter characters, plus the rest. -/
def takeUntilAny (delims : List Char) : List Char → List Char × List Char
  | [] => ([], [])
  | x :: xs =>
    if delims.contains x then ([], x :: xs)
    else
      let (p, r) := takeUntilAny delims xs
      (x :: p, r)

/-- Index of the first character satisfying `p` at position `≥ start`. -/
def findIdxFrom (p : Char → Bool) : List Char → Nat → Option Nat
  | [], _ => none
  | c :: cs, 0 => if p c then some 0 else (findIdxFrom p cs 0).map (· + 1)
  | _ :: cs, n + 1 => (findIdxFrom p cs n).map (· + 1)

/-- Index of the last character satisfying `p`. -/
def rfindIdx (p : Char → Bool) (cs : List Char) : Option Nat :=
  (findIdxFrom p cs.reverse 0).map (fun i => cs.length - 1 - i)

/-- Characters CPython allows in a URL scheme. -/
def schemeChar (c : Char) : Bool :=
  c.isAlpha ∨ c.isDigit ∨ c = '+' ∨ c = '-' ∨ c = '.'

/-- Parsed URL, as the 6-tuple CPython's `urlparse` returns. -/
structure UrlParts where
  scheme : String
  netloc : String
  path : String
  params : String
  query : String
  fragment : String
deriving DecidableEq, Repr

/-- CPython `_splitparams`: split the path at the first `;` inside its
last segment. -/
def splitParams (url : String) : String × String :=
  let cs := url.data
  let iOpt :=
    if cs.contains '/' then
      match rfindIdx (fun c => c = '/') cs with
      | some j => findIdxFrom (fun c => c = ';') cs j
      | none => findIdxFrom (fun c => c = ';') cs 0
    else findIdxFrom (fun c => c = ';') cs 0
  match iOpt with
  | none => (url, "")
  | some i => (String.mk (cs.take i), String.mk (cs.drop (i + 1)))

/-- `urllib.parse.urlparse`. -/
def urlparse (u : String) : UrlParts :=
  let cs := u.data
  let (scheme, rest) :=
    match splitAtFirst ':' cs with
    | some (pre, post) =>
      if pre ≠ [] ∧ pre.all schemeChar then (String.mk (pre.map lowerChar), post)
      else ("", cs)
    | none => ("", cs)
  let (netloc, rest2) :=
    match rest with
    | '/' :: '/' :: tl =>
      let (nl, r) := takeUntilAny ['/', '?', '#'] tl
      (String.mk nl, r)
    | _ => ("", rest)
  let (beforeFrag, fragment) :=
    match splitAtFirst '#' rest2 with
    | some (pre, post) => (pre, String.mk post)
    | none => (rest2, "")
  let (pathRaw, query) :=
    match splitAtFirst '?' beforeFrag with
    | some (pre, post) => (String.mk pre, String.mk post)
    | none => (String.mk beforeFrag, "")
  let (path, params) :=
    if (scheme = "" ∨ scheme = "http" ∨ scheme = "https") ∧ pathRaw.data.contains ';' then
      splitParams pathRaw
    else (pathRaw, "")
  ⟨scheme, netloc, path, params, query, fragment⟩

/-- Does the string begin with `//` (CPython's `url[:2] == '//'`)? -/
def twoSlashes (s : String) : Bool :=
  match s.data with
  | '/' :: '/' :: _ => true
  | _ => false

/-- Does the string begin with `/` (CPython's `url[:1] == '/'`)? -/
def oneSlash (s : String) : Bool :=
  match s.data with
  | '/' :: _ => true
  | _ => false

/-- `urllib.parse.urlunparse`. -/
def urlunparse (u : UrlParts) : String :=
  let url0 := if u.params ≠ "" then u.path ++ ";" ++ u.params else u.path
  let url1 :=
    if u.netloc ≠ "" ∨ twoSlashes url0 then
      "//" ++ u.netloc ++
        (if url0 ≠ "" ∧ ¬ oneSlash url0 then "/" ++ url0 else url0)
    else url0
  let url2 := if u.scheme ≠ "" then u.scheme ++ ":" ++ url1 else url1
  let url3 := if u.query ≠ "" then url2 ++ "?" ++ u.query else url2
  if u.fragment ≠ "" then url3 ++ "#" ++ u.fragment else url3

/-! ## `Request._queryify` and `Request._dict_to_query` -/

/-- `Request._queryify`: `quote(query.encode(encoding), safe='/=+?&')`. -/
def queryify (q : String) : String :=
  pyQuote ['/', '=', '+', '?', '&'] q

/-- `Request._dict_to_query`: turn a dictionary into a query string.
Skips falsy values; scalars join as `key=value` with inner whitespace
collapsed to `+`; a dict value emits one `key=subkey` pair per subkey;
any other iterable emits one `key=element` pair per element. -/
def dictToQuery (data : List (String × QVal)) (params : Bool := true)
    (baseQuery : Bool := false) : String :=
  let query : List String := data.foldl (fun acc kv =>
    let k := kv.1
    match kv.2 with
    | v =>
      if ¬ v.truthy then acc
      else match v with
        | .str s => acc ++ [queryify (k ++ "=" ++ joinWith "+" (pySplitWs s))]
        | .num n => acc ++ [queryify (k ++ "=" ++ joinWith "+" (pySplitWs (toString n)))]
        | .dict d => acc ++ d.map (fun sub => queryify (k ++ "=" ++ sub.1))
        | .list l =>
          acc ++ l.map (fun elm =>
            queryify (k ++ "=" ++ joinWith "+" (pySplitWs elm.pyStr)))) []
  if params ∧ query ≠ [] then
    if ¬ baseQuery then "?" ++ joinWith "&" query
    else "&" ++ joinWith "&" query
  else joinWith "&" query

/-! ## Cookie header serialization (from `make_request`, lines 169-174) -/

/-- The `Cookie` header value `make_request` builds: each `name=value`
pair followed by `'; '`, then `cookie_str[:-1]` (one trailing character
removed). -/
def cookieStr (cookies : List (String × String)) : String :=
  (cookies.foldl (fun acc kv => acc ++ kv.1 ++ "=" ++ kv.2 ++ "; ") "").dropRight 1

/-! ## `Request._multipart` -/

/-- The `if not mime_type[1]` dispatch of `_multipart`:
`mimetypes.guess_type` returns a `(type, encoding)` pair and the source
tests the *encoding* slot, using `application/octet-stream` whenever the
encoding is falsy and otherwise joining both tuple slots with `/`
(a `TypeError` when the type slot is `None`). -/
def mimeFor (guess : String → Option String × Option String) (fileName : String) :
    Except PyErr String :=
  let mt := guess fileName
  if mt.2.getD "" = "" then .ok "application/octet-stream"
  else
    match mt.1 with
    | some t => .ok (t ++ "/" ++ mt.2.getD "")
    | none => .error .typeError

/-- One multipart part plus the recursion over the remaining parts.
`fsys` models the readable files (`path ↦ contents`): a `.str` value
naming a missing path raises `FileNotFoundError`, caught by the source
and routed to the literal-text branch; a non-string value raises
`TypeError` at `aopen`, also caught, but the literal branch then calls
`bytes(v, encoding)` on the non-string and that `TypeError` escapes. -/
def multipartGo (fsys : List (String × String))
    (guess : String → Option String × Option String) (boundary : String) :
    List (String × QVal) → Except PyErr String
  | [] => .ok ""
  | (k, v) :: rest => do
    let lead := "--" ++ boundary ++ "\r\n"
    let part ← (do
      match v with
      | .str p =>
        match (fsys.find? (fun f => f.1 = p)).map (fun f => f.2) with
        | some contents =>
          let pkgBody := contents ++ "\r\n"
          let mime ← mimeFor guess (pyBasename p)
          .ok ("Content-Disposition: form-data; name=\"" ++ k ++ "\"" ++
               "; filename=\"" ++ pyBasename p ++ "\"" ++
               "; Content-Type: " ++ mime ++ "\r\n\r\n" ++ pkgBody)
        | none =>
          .ok ("Content-Disposition: form-data; name=\"" ++ k ++ "\"" ++
               "\r\n\r\n" ++ p ++ "\r\n")
      | _ => .error PyErr.typeError)
    let finish := if rest.isEmpty then "--" ++ boundary ++ "--\r\n" else ""
    let restS ← multipartGo fsys guess boundary rest
    .ok (lead ++ part ++ finish ++ restS)

/-- `Request._multipart`: the full multipart/form-data body. -/
def multipart (fsys : List (String × String))
    (guess : String → Option String × Option String) (boundary : String)
    (filesDict : List (String × QVal)) : Except PyErr String :=
  multipartGo fsys guess boundary filesDict

/-! ## Data model: responses, wire events, request state -/

/-- Value stored under one key of the response-header mapping: a plain
string, or (for `set-cookie` only) the list the source collapses repeated
`set-cookie` entries into. -/
inductive HVal where
  | str (s : String)
  | strList (l : List String)
deriving DecidableEq, Repr

/-- The fields `Response(**resp_data)` is constructed from (the Response
class itself is a collaborator; `bodyIsStream` marks a `StreamBody`
lazy body instead of buffered bytes). -/
structure RespCore where
  statusCode : Nat
  reasonPhrase : String
  httpVersion : String
  headers : List (String × HVal)
  body : String
  bodyIsStream : Bool
deriving DecidableEq, Repr

/-- A Response object together with its `history` attribute.  Entries of
`history` are stored as bare cores: the source only ever appends
responses whose own `history` attribute still has its default value. -/
structure Resp where
  core : RespCore
  history : List RespCore
deriving DecidableEq, Repr

/-- The dynamically-typed value flowing through `_request_io` after the
authentication step: either a `Response`, or the `(connection, response)`
tuple that `_auth_handler_post_check_retry` returns unchanged from its
inner `make_request()` call. -/
inductive RespVal where
  | resp (r : Resp)
  | pair (conn : Option Nat) (r : Resp)
deriving DecidableEq, Repr

/-- Wire events after the response headers, as h11 yields them. -/
inductive BodyEvent where
  | chunk (s : String)
  | endOfMessage
deriving DecidableEq, Repr

/-- One scripted server answer: the h11 response event plus the body
events that follow it. -/
structure WireResponse where
  statusCode : Nat
  reasonPhrase : String := "OK"
  httpVersion : String := "1.1"
  headers : List (String × String)
  events : List BodyEvent
deriving DecidableEq, Repr

/-- The two authentication strategy kinds (`PreResponseAuth` /
`PostResponseAuth`). -/
inductive AuthKind where
  | pre
  | post
deriving DecidableEq, Repr

/-- A `data` / `params` argument: a mapping, or a literal string (the
source routes non-mappings through `except AttributeError`). -/
inductive DataVal where
  | dict (entries : List (String × QVal))
  | lit (s : String)

/-- Python truthiness of an optional `data`/`params` argument. -/
def dataTruthy : Option DataVal → Bool
  | none => false
  | some (.dict []) => false
  | some (.dict (_ :: _)) => true
  | some (.lit st) => st ≠ ""

/-- Python truthiness of the optional `files` mapping. -/
def filesTruthy : Option (List (String × QVal)) → Bool
  | none => false
  | some [] => false
  | some (_ :: _) => true

/-- Truthiness of the optional JSON payload, which the embedding carries
as its serialized text (`_json.dumps` is a stdlib collaborator); an
empty serialization stands for a falsy payload. -/
def jsonTruthy : Option String → Bool
  | none => false
  | some st => st ≠ ""

/-- A request as handed to the wire (`h11.Request` plus body): recorded
by the embedding so theorems can inspect what was sent. -/
structure SentRequest where
  method : String
  target : String
  headers : List (String × String)
  body : String
deriving DecidableEq, Repr

/-- The mutable state of one `Request` object, plus the bookkeeping the
embedding adds: `attempt` counts requests handed to the wire (it also
indexes the server script), `sentRequests` records them,
`callbackChunks` records chunks delivered to the user callback, and
`nextSock` is the pool's next fresh connection id. -/
structure ReqState where
  method : String
  uri : String
  port : String
  authKind : Option AuthKind
  authAttempted : Bool
  authOffDomain : Bool
  data : Option DataVal
  params : Option DataVal
  headers : Option (List (String × String))
  encoding : String
  json : Option String
  files : Option (List (String × QVal))
  cookies : List (String × String)
  callback : Bool
  stream : Bool
  maxRedirects : Int
  sock : Nat
  sockActive : Bool
  persistCookies : Bool
  history : List RespCore
  scheme : String
  netloc : String
  path : String
  query : String
  initialScheme : Option String
  initialNetloc : Option String
  streaming : Bool
  attempt : Nat
  sentRequests : List SentRequest
  callbackChunks : List String
  nextSock : Nat

/-- The environment of one exchange: the scripted server (a wire
response per attempt index), what the auth strategy's `__call__`
returns, the cookie jar's extra cookies, the readable files, the
MIME-type guesser, and the multipart boundary token. -/
structure Env where
  server : Nat → WireResponse
  authHeaders : List (String × String)
  additionalCookies : List (String × String)
  fsys : List (String × String)
  guess : String → Option String × Option String
  boundary : String

/-- Outcome of a stateful step: a value or a raised exception, in both
cases with the object state at that moment (in Python the `Request`
object survives an exception). -/
inductive RunResult (α : Type) where
  | ok (val : α) (s : ReqState)
  | err (e : PyErr) (s : ReqState)

/-- State at the end of a run, whether it returned or raised. -/
def stateOf {α : Type} : RunResult α → ReqState
  | .ok _ s => s
  | .err _ s => s

/-- The exception a run raised, if any. -/
def errOf {α : Type} : RunResult α → Option PyErr
  | .ok _ _ => none
  | .err e _ => some e

/-- The value a run returned, if it returned. -/
def okOf {α : Type} : RunResult α → Option α
  | .ok v _ => some v
  | .err _ _ => none

/-! ## `Request._catch_response` -/

/-- The response-header mapping `resp_data['headers']`: a
case-insensitive dict built from the wire headers, then the source's
`set-cookie` pass collapsing repeated `set-cookie` entries into a list
(first occurrence: `KeyError`/`AttributeError` caught, a fresh
one-element list is stored). -/
def mkRespHeaders (wire : List (String × String)) : List (String × HVal) :=
  let base := wire.foldl (fun acc p => ciStore acc p.1 (HVal.str p.2)) []
  wire.foldl (fun acc p =>
    if p.1 = "set-cookie" then
      match ciFind acc "set-cookie" with
      | some (.strList l) => ciStore acc "set-cookie" (.strList (l ++ [p.2]))
      | some (.str _) => ciStore acc "set-cookie" (.strList [p.2])
      | none => ciStore acc "set-cookie" (.strList [p.2])
    else acc) base

/-- The `get_body` decision of `_catch_response` (lines 526-532):
`Content-Length > 0`, else — under the `except KeyError` — the
`transfer-encoding == 'chunked'` test, whose own lookup of a missing
`transfer-encoding` header raises an uncaught `KeyError`. -/
def bodyExpected (hs : List (String × HVal)) : Except PyErr Bool :=
  match ciFind hs "content-length" with
  | some (.str v) =>
    match pyInt v with
    | some n => .ok (decide (n > 0))
    | none => .error .valueError
  | some (.strList _) => .error .typeError
  | none =>
    match ciFind hs "transfer-encoding" with
    | some (.str v) => .ok (decide (v = "chunked"))
    | some (.strList _) => .ok false
    | none => .error .keyError

/-- The buffered-body loop: accumulate `Data` events until
`EndOfMessage`, returning the body and the unconsumed events. -/
def bufferBody : List BodyEvent → String → Except PyErr (String × List BodyEvent)
  | [], _ => .error .stuck
  | .chunk d :: rest, acc => bufferBody rest (acc ++ d)
  | .endOfMessage :: rest, acc => .ok (acc, rest)

/-- `Request._body_callback`: feed each `Data` event to the callback,
returning on the first non-`Data` event. -/
def callbackBody : List BodyEvent → List String → Except PyErr (List String × List BodyEvent)
  | [], _ => .error .stuck
  | .chunk d :: rest, acc => callbackBody rest (acc ++ [d])
  | .endOfMessage :: rest, acc => .ok (acc, rest)

/-- `Request._catch_response`: build the response record, decide whether
a body is expected, and consume it in callback, streaming or buffered
mode.  Returns the response and the wire events left unconsumed. -/
def catchResponse (s : ReqState) (w : WireResponse) : RunResult (Resp × List BodyEvent) :=
  let hs := mkRespHeaders w.headers
  let core0 : RespCore :=
    { statusCode := w.statusCode, reasonPhrase := w.reasonPhrase,
      httpVersion := w.httpVersion, headers := hs, body := "",
      bodyIsStream := false }
  match bodyExpected hs with
  | .error e => .err e s
  | .ok getBody =>
    if getBody then
      if s.callback then
        match callbackBody w.events [] with
        | .error e => .err e s
        | .ok (chunks, rest) =>
          .ok (⟨core0, []⟩, rest) { s with callbackChunks := s.callbackChunks ++ chunks }
      else if s.stream then
        if 199 < w.statusCode ∧ w.statusCode < 300 then
          -- `not ((same scheme and netloc as initial) or connection == close)`
          -- deactivates the socket; the second disjunct's header lookup is
          -- only reached (and only then can raise `KeyError`) when the
          -- first is false.
          if s.initialScheme = some s.scheme ∧ s.initialNetloc = some s.netloc then
            .ok (⟨{ core0 with bodyIsStream := true }, []⟩, w.events)
              { s with streaming := true }
          else
            match ciFind hs "connection" with
            | none => .err .keyError s
            | some (.str v) =>
              if v = "close" then
                .ok (⟨{ core0 with bodyIsStream := true }, []⟩, w.events)
                  { s with streaming := true }
              else
                .ok (⟨{ core0 with bodyIsStream := true }, []⟩, w.events)
                  { s with sockActive := false, streaming := true }
            | some (.strList _) =>
              .ok (⟨{ core0 with bodyIsStream := true }, []⟩, w.events)
                { s with sockActive := false, streaming := true }
        else
          -- streaming requested but status outside 200-299: the
          -- `elif self.stream is not None` arm does nothing, so the body
          -- events stay unconsumed and the body stays empty.
          .ok (⟨core0, []⟩, w.events) s
      else
        match bufferBody w.events "" with
        | .error e => .err e s
        | .ok (body, rest) => .ok (⟨{ core0 with body := body }, []⟩, rest) s
    else
      match w.events with
      | .endOfMessage :: rest => .ok (⟨core0, []⟩, rest) s
      | .chunk _ :: _ => .err .assertionError s
      | [] => .err .stuck s

/-! ## Authentication handlers -/

/-- `Request._auth_handler_pre`: a `PreResponseAuth` strategy yields its
headers unconditionally, anything else yields none. -/
def authHandlerPre (env : Env) (s : ReqState) : List (String × String) :=
  if s.authKind = some .pre then env.authHeaders else []

/-- `Request._auth_handler_post_get_auth`: a `PostResponseAuth` strategy
yields headers only when the history is non-empty, its last entry is a
401, and `auth_attempted` is still false — which it then sets. -/
def authHandlerPostGetAuth (env : Env) (s : ReqState) :
    List (String × String) × ReqState :=
  if s.authKind = some .post then
    match s.history.getLast? with
    | some last =>
      if last.statusCode = 401 ∧ ¬ s.authAttempted then
        (env.authHeaders, { s with authAttempted := true })
      else ([], s)
    | none => ([], s)
  else ([], s)

/-- `Request._auth_handler_post_check_retry`: on a first 401 with a
`PostResponseAuth` strategy, store the 401 in history and re-issue the
whole request; the re-issue's return value `r` is `make_request`'s
`(connection, response)` TUPLE and is returned as-is (the source does
not unpack it).  On a repeated 401, attach history and return the
response unchanged. -/
def authHandlerPostCheckRetry (reissue : ReqState → RunResult (Option Nat × Resp))
    (r : Resp) (s : ReqState) : RunResult RespVal :=
  if s.authKind = some .post then
    if r.core.statusCode = 401 then
      if ¬ s.authAttempted then
        let s1 := { s with history := s.history ++ [r.core] }
        match reissue s1 with
        | .ok (c, r2) s2 => .ok (.pair c r2) { s2 with authAttempted := false }
        | .err e s2 => .err e s2
      else .ok (.resp { r with history := s.history }) s
    else .ok (.resp r) s
  else .ok (.resp r) s

/-! ## Redirect machinery -/

/-- Last two dot-separated labels: `'.'.join(host.split('.')[-2:])`. -/
def lastTwoLabels (host : String) : String :=
  let labels := (host.data.splitOnP (fun c => c = '.')).map String.mk
  joinWith "." (labels.drop (labels.length - 2))

/-- `Request._location_auth_protect` with awaited semantics: same base
domain required, and a lexicographic scheme comparison; falls off the end
(returns `None`) when the base domains differ, and raises `TypeError`
when a netloc does not start with a `ww?.` token (`re.match(...)[0]` on
`None`).  NOTE: the source's only call site does not `await` this
coroutine function, so this body never actually runs there. -/
def locationAuthProtect (s : ReqState) (location : String) :
    Except PyErr (Option Bool) :=
  let nsp0 := String.mk (takeUntilAny [':'] s.netloc.data).1
  match wwxMatch nsp0 with
  | none => .error .typeError
  | some m =>
    let nsp := nsp0.replace m ""
    let baseDomain := lastTwoLabels nsp
    let lp := urlparse location
    let lsp0 := String.mk (takeUntilAny [':'] lp.netloc.data).1
    match wwxMatch lsp0 with
    | none => .error .typeError
    | some m2 =>
      let lsp := lsp0.replace m2 ""
      let locationDomain := lastTwoLabels lsp
      if baseDomain = locationDomain then
        if lp.scheme < s.scheme then .ok (some false) else .ok (some true)
      else .ok none

/-- `Request._get_new_sock`: deactivate the current connection, hand it
back to the session, and draw a replacement.  The session class lives
outside `src/`; Modelled from the spec: the session/pool collaborator
contract `acquire(uri) -> (connection, port)` and
`acquire() -> connection` (§6) — a fresh connection id is drawn from the
pool counter and, for an off-base acquisition, the port follows the
target URI's scheme.  The `DSession` variant (also outside `src/`) is
not modelled; the embedding runs under the base-session kind. -/
def getNewSock (s : ReqState) (offBaseLoc : Option String) : ReqState :=
  let s1 := { s with sockActive := false }
  match offBaseLoc with
  | none => { s1 with sock := s1.nextSock, nextSock := s1.nextSock + 1, sockActive := true }
  | some uri =>
    let prt := if (urlparse uri).scheme = "https" then "443" else "80"
    { s1 with sock := s1.nextSock, nextSock := s1.nextSock + 1, sockActive := true,
              port := prt }

/-- `Request._redirect`: interpret a 3xx response, mutate the request
(URI, method, budget, connection) and re-issue via `reissue` (the
source's `self.make_request()`, called with its default
`redirect=False`).  Receiving the `(connection, response)` tuple instead
of a response raises `AttributeError` at the first attribute access. -/
def redirectStep (reissue : ReqState → RunResult (Option Nat × Resp))
    (rv : RespVal) (s : ReqState) : RunResult Resp :=
  match rv with
  | .pair _ _ => .err .attributeError s
  | .resp r =>
    if 300 ≤ r.core.statusCode ∧ r.core.statusCode < 400 then
      let s := if r.core.statusCode = 303 then
          { s with data := none, json := none, files := none } else s
      let forceGet := ¬ (r.core.statusCode = 301 ∨ r.core.statusCode = 305)
      match ciFind r.core.headers "Location" with
      | none => .err .keyError s
      | some (.strList _) => .err .attributeError s
      | some (.str location0) =>
        let redirectUri := urlparse (pyStrip location0)
        let s2 :=
          if redirectUri.netloc = "" then
            { s with uri := urlunparse ⟨s.scheme, s.netloc, redirectUri.path,
                redirectUri.params, redirectUri.query, redirectUri.fragment⟩ }
          else
            -- BUG in source: `allow_redirect = self._location_auth_protect(location)`
            -- is not awaited; the resulting coroutine object is truthy whatever
            -- the domains are, so `allow_redirect` below is truthy in every case
            -- and `locationAuthProtect` never executes.
            let location := pyStrip location0
            let lp := urlparse location
            let sU := { s with uri := location }
            if lp.scheme ≠ s.scheme ∨ lp.netloc ≠ s.netloc then
              getNewSock sU (some sU.uri)
            else sU
        let allowRedirect := true
        let s3 := { s2 with history := s2.history ++ [r.core],
                            method := if forceGet then "GET" else s2.method }
        let s4 := { s3 with maxRedirects := s3.maxRedirects - 1 }
        match ciFind r.core.headers "connection" with
        | some (.strList _) => .err .attributeError s4
        | connOpt =>
          let s5 :=
            match connOpt with
            | some (.str v) => if lowerStr v = "close" then getNewSock s4 none else s4
            | _ => s4
          if allowRedirect then
            match reissue s5 with
            | .ok (_, r2) s6 => .ok r2 s6
            | .err e s6 => .err e s6
          else .ok r s5
    else .ok r s

/-! ## `Request._request_io`, `_build_path`, `_formulate_body`, `make_request` -/

/-- `Request._request_io`: send, receive, run the post-response auth
step, check the redirect budget, run the redirect step, and attach the
accumulated history to the returned response.  The
`_parse_cookies` / `_store_cookies` / `_guess_encoding` calls are
Response-object and cookie-jar collaborators with no effect on the state
modelled here. -/
def requestIo (env : Env) (reissue : ReqState → RunResult (Option Nat × Resp))
    (req : SentRequest) (s : ReqState) : RunResult Resp :=
  let wire := env.server s.attempt
  let s0 := { s with sentRequests := s.sentRequests ++ [req], attempt := s.attempt + 1 }
  match catchResponse s0 wire with
  | .err e s1 => .err e s1
  | .ok (r, _leftover) s1 =>
    let step2 : RunResult RespVal :=
      if s1.authKind.isSome then authHandlerPostCheckRetry reissue r s1
      else .ok (.resp r) s1
    match step2 with
    | .err e s2 => .err e s2
    | .ok rv s2 =>
      if s2.method ≠ "HEAD" then
        if s2.maxRedirects < 0 then .err .tooManyRedirects s2
        else
          match redirectStep reissue rv s2 with
          | .err e s3 => .err e s3
          | .ok r2 s3 => .ok { r2 with history := s3.history } s3
      else
        match rv with
        | .resp r2 => .ok { r2 with history := s2.history } s2
        | .pair _ _ => .err .attributeError s2

/-- `Request._build_path`: default the path to `/`, append the parsed
query, then append the `params` mapping (a non-mapping goes through the
`except AttributeError` branch as a quoted literal). -/
def buildPath (s : ReqState) : ReqState :=
  let s := if s.path = "" then { s with path := "/" } else s
  let s := if s.query ≠ "" then { s with path := s.path ++ "?" ++ s.query } else s
  match s.params with
  | none => s
  | some pv =>
    if ¬ dataTruthy (some pv) then s
    else
      match pv with
      | .dict d =>
        if s.query ≠ "" then { s with path := s.path ++ dictToQuery d true true }
        else { s with path := s.path ++ dictToQuery d true false }
      | .lit st => { s with path := s.path ++ "?" ++ queryify st }

/-- `Request._formulate_body`: body-kind priority files+data > files >
data > json; returns content type, `str(len(body))` and the body (for
the ASCII bodies exercised here the character length the source computes
coincides with the byte length). -/
def formulateBody (env : Env) (s : ReqState) : Except PyErr (String × String × String) :=
  let multipartCt := "multipart/form-data; boundary=" ++ env.boundary
  if s.files.isSome ∧ s.data.isSome then
    match s.data with
    | some (.dict d) => do
      let combo := dictMerge (s.files.getD []) d
      let body ← multipart env.fsys env.guess env.boundary combo
      .ok (multipartCt, toString body.length, body)
    | _ => .error .typeError
  else if s.files.isSome then do
    let body ← multipart env.fsys env.guess env.boundary (s.files.getD [])
    .ok (multipartCt, toString body.length, body)
  else if s.data.isSome then
    match s.data with
    | some (.dict d) =>
      let body := dictToQuery d false false
      .ok ("application/x-www-form-urlencoded", toString body.length, body)
    | some (.lit st) => .ok (" text/html", toString st.length, st)
    | none => .ok ("", "0", "")
  else if s.json.isSome then
    let body := s.json.getD ""
    .ok ("application/json", toString body.length, body)
  else .ok ("", "0", "")

/-- The tail of `make_request` (lines 191-203): the post-exchange
connection check (dead unless `redirect=True` were ever passed) and the
`(connection, response)` packaging — the connection is withheld (`None`)
when the exchange went streaming. -/
def packageConn (redirect : Bool) (r : Resp) (s6 : ReqState) :
    RunResult (Option Nat × Resp) :=
  let s7 :=
    if redirect ∧ ¬ (some s6.scheme = s6.initialScheme ∧ some s6.netloc = s6.initialNetloc) then
      { s6 with sockActive := false }
    else s6
  if s7.streaming then .ok (none, r) s7
  else .ok (some s7.sock, r) s7

/-- `Request.make_request`: the orchestrator.  Parses the URI, records
the initial scheme/netloc when `redirect` is false (the source's only
call sites all leave `redirect` at its default `False`), assembles
headers, body, auth and cookies, runs the exchange, and packages the
connection for return to the pool — `None` when the exchange went
streaming.  `fuel` bounds the re-issue recursion depth. -/
def makeRequest (env : Env) : Nat → Bool → ReqState → RunResult (Option Nat × Resp)
  | 0, _, s => .err .outOfFuel s
  | fuel + 1, redirect, s =>
    let p := urlparse s.uri
    let s1 := { s with scheme := p.scheme, netloc := p.netloc,
                       path := p.path, query := p.query }
    let s2 := if ¬ redirect then
        { s1 with initialScheme := some p.scheme, initialNetloc := some p.netloc }
      else s1
    let host := if s2.port = "80" ∨ s2.port = "443" then s2.netloc
      else s2.netloc ++ ":" ++ s2.port
    let asksHeaders0 : List (String × String) :=
      [("Host", host), ("Connection", "keep-alive"),
       ("Accept-Encoding", "gzip, deflate"), ("Accept", "*/*"),
       ("Content-Length", "0"), ("User-Agent", "python-asks/0.0.1")]
    let s3 := if s2.persistCookies then
        { s2 with cookies := dictMerge s2.cookies env.additionalCookies }
      else s2
    let s4 := buildPath s3
    let anyBody := dataTruthy s4.data ∨ filesTruthy s4.files ∨ jsonTruthy s4.json
    match (if anyBody then (formulateBody env s4).map some else .ok none) with
    | .error e => .err e s4
    | .ok formRes =>
      let asksHeaders1 :=
        match formRes with
        | some (ct, cl, _) => ciStore (ciStore asksHeaders0 "Content-Type" ct) "Content-Length" cl
        | none => asksHeaders0
      let body := match formRes with
        | some (_, _, b) => b
        | none => ""
      let asksHeaders2 :=
        match s4.headers with
        | some hs => ciUpdate asksHeaders1 hs
        | none => asksHeaders1
      let (asksHeaders3, s5) :=
        if s4.authKind.isSome then
          let h1 := ciUpdate asksHeaders2 (authHandlerPre env s4)
          let (postH, sP) := authHandlerPostGetAuth env s4
          (ciUpdate h1 postH, sP)
        else (asksHeaders2, s4)
      let asksHeaders4 :=
        if s5.cookies ≠ [] then ciStore asksHeaders3 "Cookie" (cookieStr s5.cookies)
        else asksHeaders3
      let req : SentRequest :=
        { method := s5.method, target := s5.path, headers := asksHeaders4, body := body }
      match requestIo env (fun st => makeRequest env fuel false st) req s5 with
      | .err e s6 => .err e s6
      | .ok r s6 => packageConn redirect r s6

/-! ## Concrete exchange set-ups used by the theorems -/

/-- A `Request` as a session constructs it: the `__init__` defaults
(`max_redirects = 20`, no auth, no body, empty cookie dict), with the
caller's method, URI and port, connection id 0 held and id 1 the pool's
next fresh one. -/
def initState (method uri port : String) : ReqState :=
  { method := method, uri := uri, port := port,
    authKind := none, authAttempted := false, authOffDomain := false,
    data := none, params := none, headers := none, encoding := "utf-8",
    json := none, files := none, cookies := [], callback := false,
    stream := false, maxRedirects := 20, sock := 0, sockActive := true,
    persistCookies := false, history := [], scheme := "", netloc := "",
    path := "", query := "", initialScheme := none, initialNetloc := none,
    streaming := false, attempt := 0, sentRequests := [], callbackChunks := [],
    nextSock := 1 }

/-- A bodyless 200. -/
def w200 : WireResponse :=
  { statusCode := 200, headers := [("content-length", "0")], events := [.endOfMessage] }

/-- A bodyless 301 with the given `Location`. -/
def w301 (loc : String) : WireResponse :=
  { statusCode := 301, headers := [("content-length", "0"), ("location", loc)],
    events := [.endOfMessage] }

/-- A bodyless 401. -/
def w401 : WireResponse :=
  { statusCode := 401, headers := [("content-length", "0")], events := [.endOfMessage] }

/-- Server for a plain exchange: 200 on every attempt. -/
def plainEnv : Env :=
  { server := fun _ => w200, authHeaders := [], additionalCookies := [],
    fsys := [], guess := fun _ => (none, none), boundary := "B" }

/-- Server that redirects the first attempt to another authority, then
answers 200. -/
def crossServer (n : Nat) : WireResponse :=
  if n = 0 then w301 "http://bar.com/b" else w200

/-- Environment for the cross-authority redirect exchange. -/
def crossEnv : Env :=
  { server := crossServer, authHeaders := [], additionalCookies := [],
    fsys := [], guess := fun _ => (none, none), boundary := "B" }

/-- The cross-authority redirect run: `GET http://foo.com/a`, redirected
to `http://bar.com/b`. -/
def crossRun : RunResult (Option Nat × Resp) :=
  makeRequest crossEnv 3 false (initState "GET" "http://foo.com/a" "80")

/-- Server that redirects the first attempt to a different base domain,
then answers 200. -/
def leakServer (n : Nat) : WireResponse :=
  if n = 0 then w301 "https://www.evil.org/b" else w200

/-- Environment for the off-domain redirect with an authentication
strategy whose headers are `Authorization: secret`. -/
def leakEnv : Env :=
  { server := leakServer, authHeaders := [("Authorization", "secret")],
    additionalCookies := [], fsys := [], guess := fun _ => (none, none),
    boundary := "B" }

/-- Off-domain redirect run with a `PreResponseAuth` strategy and
`auth_off_domain` unset. -/
def leakRun : RunResult (Option Nat × Resp) :=
  makeRequest leakEnv 3 false
    { initState "GET" "https://www.foo.com/a" "443" with authKind := some .pre }

/-- The same off-domain redirect run with `auth_off_domain` set. -/
def leakRunOffDomain : RunResult (Option Nat × Resp) :=
  makeRequest leakEnv 3 false
    { initState "GET" "https://www.foo.com/a" "443" with
        authKind := some .pre, authOffDomain := true }

/-- Environment whose server answers 401 to every attempt, with a
`PostResponseAuth` strategy producing `Authorization: digest`. -/
def doubleUnauthorizedEnv : Env :=
  { server := fun _ => w401, authHeaders := [("Authorization", "digest")],
    additionalCookies := [], fsys := [], guess := fun _ => (none, none),
    boundary := "B" }

/-- The two-401 exchange with a `PostResponseAuth` strategy. -/
def doubleUnauthorizedRun : RunResult (Option Nat × Resp) :=
  makeRequest doubleUnauthorizedEnv 3 false
    { initState "GET" "http://foo.com/a" "80" with authKind := some .post }

/-- Environment whose server answers every attempt with
`301 Location: /r` (a same-origin relative redirect). -/
def alwaysRedirectEnv : Env :=
  { server := fun _ => w301 "/r", authHeaders := [], additionalCookies := [],
    fsys := [], guess := fun _ => (none, none), boundary := "B" }

/-- The state of the always-redirected `GET http://foo.com/r` exchange
between redirect hops: the redirect budget, the accumulated history, the
attempt counter and the sent-request log are the only fields the hops
change (the relative `Location: /r` rebuilds the same URI). -/
def loopState (mr : Int) (hist : List RespCore) (att : Nat)
    (sent : List SentRequest) : ReqState :=
  { initState "GET" "http://foo.com/r" "80" with
      maxRedirects := mr, history := hist, attempt := att, sentRequests := sent }

/-- The 301 response core the always-redirecting server produces, as
`_catch_response` records it into history. -/
def loop301Core : RespCore :=
  { statusCode := 301, reasonPhrase := "OK", httpVersion := "1.1",
    headers := [("content-length", HVal.str "0"), ("location", HVal.str "/r")],
    body := "", bodyIsStream := false }

/-- The request each hop of the always-redirected exchange sends. -/
def loopSentReq : SentRequest :=
  { method := "GET", target := "/r",
    headers := [("Host", "foo.com"), ("Connection", "keep-alive"),
                ("Accept-Encoding", "gzip, deflate"), ("Accept", "*/*"),
                ("Content-Length", "0"), ("User-Agent", "python-asks/0.0.1")],
    body := "" }

/-- The request-state fields (beyond the hop-varying budget, history,
attempt counter and sent log) that pin an exchange to the
always-redirected `GET http://foo.com/r` scenario: bodyless, cookieless,
authless, non-streaming.  Every other field is free, because
`make_request` overwrites or never reads it on this path. -/
def LoopShape (s : ReqState) : Prop :=
  s.method = "GET" ∧ s.uri = "http://foo.com/r" ∧ s.port = "80" ∧
  s.authKind = none ∧ s.data = none ∧ s.params = none ∧ s.headers = none ∧
  s.json = none ∧ s.files = none ∧ s.cookies = [] ∧ s.callback = false ∧
  s.stream = false ∧ s.persistCookies = false

/-- One hop of the always-redirected exchange: what `make_request`
leaves of the state when it re-issues after the 301 — origin fields set,
the 301 appended to history, the budget decremented, the attempt counted
and the sent request logged. -/
def hopState (s : ReqState) : ReqState :=
  { s with scheme := "http", netloc := "foo.com", path := "/r", query := "",
           initialScheme := some "http", initialNetloc := some "foo.com",
           uri := "http://foo.com/r",
           history := s.history ++ [loop301Core],
           maxRedirects := s.maxRedirects - 1,
           attempt := s.attempt + 1,
           sentRequests := s.sentRequests ++ [loopSentReq] }

/-- A state mid-exchange after the first attempt's parse of
`http://foo.com/a`, used to exercise `_catch_response` directly. -/
def catchState : ReqState :=
  { initState "GET" "http://foo.com/a" "80" with
      scheme := "http", netloc := "foo.com",
      initialScheme := some "http", initialNetloc := some "foo.com" }

/-- The same state with streaming mode requested by the caller. -/
def catchStateStream : ReqState :=
  { catchState with stream := true }

/-- A 404 carrying a three-byte body. -/
def w404 : WireResponse :=
  { statusCode := 404, headers := [("content-length", "3")],
    events := [.chunk "abc", .endOfMessage] }

/-- A response with neither `content-length` nor `transfer-encoding`
(nor `connection`) among its headers. -/
def wBare : WireResponse :=
  { statusCode := 204, headers := [("server", "x")], events := [.endOfMessage] }

/-- The streaming-mode consumption of the 404. -/
def c5run : RunResult (Resp × List BodyEvent) :=
  catchResponse catchStateStream w404

/-- Value component of `c5run` (it succeeds; the fallback is unused). -/
def c5val : Resp × List BodyEvent :=
  match c5run with
  | .ok v _ => v
  | .err _ _ => (⟨⟨0, "", "", [], "", false⟩, []⟩, [])

/-- State component of `c5run`. -/
def c5state : ReqState := stateOf c5run

/-- A `mimetypes.guess_type` model knowing `a.png`, matching the stdlib:
the type slot guesses `image/png`, the encoding slot is `None`. -/
def pngGuess (n : String) : Option String × Option String :=
  if n = "a.png" then (some "image/png", none) else (none, none)

/-- One readable file `a.png`. -/
def pngFs : List (String × String) := [("a.png", "PNGDATA")]

/-- A plain exchange carrying the cookie mapping `a=1, b=2`. -/
def cookieRun : RunResult (Option Nat × Resp) :=
  makeRequest plainEnv 1 false
    { initState "GET" "http://foo.com/a" "80" with cookies := [("a", "1"), ("b", "2")] }

/-- A plain one-attempt exchange, for the connection-packaging witness. -/
def c10run : RunResult (Option Nat × Resp) :=
  makeRequest plainEnv 1 false (initState "GET" "http://foo.com/a" "80")

/-- Connection component of `c10run` (it succeeds; fallback unused). -/
def c10conn : Option Nat :=
  match c10run with
  | .ok (c, _) _ => c
  | .err _ _ => none

/-- Response component of `c10run` (fallback unused). -/
def c10resp : Resp :=
  match c10run with
  | .ok (_, r) _ => r
  | .err _ _ => ⟨⟨0, "", "", [], "", false⟩, []⟩

/-- State component of `c10run`. -/
def c10state : ReqState := stateOf c10run

/-- The start state of the budget-1 always-redirected exchange. -/
def c4start : ReqState :=
  { initState "GET" "http://foo.com/r" "80" with maxRedirects := 1 }

/-! ## Helper lemmas -/

/-- A run whose `errOf` is `some e` is the error `e` at its own final
state. -/
theorem errEq {α : Type} (r : RunResult α) (e : PyErr) (h : errOf r = some e) :
    r = .err e (stateOf r) := by
  cases r with
  | ok v s => simp [errOf] at h
  | err e2 s =>
    simp [errOf] at h
    subst h
    rfl

/-- One redirect hop preserves the loop shape. -/
theorem loopShapeHop (s : ReqState) (hs : LoopShape s) : LoopShape (hopState s) := by
  obtain ⟨h1, h2, h3, h4, h5, h6, h7, h8, h9, h10, h11, h12, h13⟩ := hs
  refine ⟨?_, ?_, ?_, ?_, ?_, ?_, ?_, ?_, ?_, ?_, ?_, ?_, ?_⟩ <;>
    simp [hopState, h1, h2, h3, h4, h5, h6, h7, h8, h9, h10, h11, h12, h13]

set_option maxHeartbeats 2000000 in
/-- Exhausted budget: an attempt entered with a negative redirect budget
raises `TooManyRedirects` right after receiving its response, before any
redirect processing, having issued exactly one request. -/
theorem c4_base (fuel : Nat) (s : ReqState) (hs : LoopShape s)
    (hmr : s.maxRedirects < 0) :
    errOf (makeRequest alwaysRedirectEnv (fuel + 1) false s) = some PyErr.tooManyRedirects ∧
    (stateOf (makeRequest alwaysRedirectEnv (fuel + 1) false s)).attempt = s.attempt + 1 := by
  obtain ⟨h1, h2, h3, h4, h5, h6, h7, h8, h9, h10, h11, h12, h13⟩ := hs
  simp [makeRequest, alwaysRedirectEnv, requestIo, catchResponse,
        w301, mkRespHeaders, bodyExpected, buildPath, formulateBody, urlparse, urlunparse,
        twoSlashes, oneSlash,
        splitAtFirst, takeUntilAny, schemeChar, lowerChar, lowerStr, ciFind, ciStore,
        ciUpdate, dictMerge, cookieStr, dataTruthy, filesTruthy, jsonTruthy, pyInt,
        pyStrip, dropSpaceLeft, isPySpace, splitParams, loopSentReq, loop301Core,
        authHandlerPre, authHandlerPostGetAuth, authHandlerPostCheckRetry,
        errOf, stateOf, hmr, h1, h2, h3, h4, h5, h6, h7, h8, h9, h10, h11, h12, h13]

set_option maxHeartbeats 4000000 in
/-- Available budget: an attempt entered with a non-negative budget that
is answered `301 Location: /r` appends the 301 to history, decrements
the budget, re-issues, and propagates the re-issue's exception
unchanged. -/
theorem c4_step (fuel : Nat) (s : ReqState) (hs : LoopShape s)
    (hmr : 0 ≤ s.maxRedirects) (e : PyErr) (s' : ReqState)
    (hinner : makeRequest alwaysRedirectEnv fuel false (hopState s) = .err e s') :
    makeRequest alwaysRedirectEnv (fuel + 1) false s = .err e s' := by
  obtain ⟨h1, h2, h3, h4, h5, h6, h7, h8, h9, h10, h11, h12, h13⟩ := hs
  have hmr2 : ¬ (s.maxRedirects < 0) := not_lt.mpr hmr
  simp [hopState, loop301Core, loopSentReq, alwaysRedirectEnv, w301,
        h1, h2, h3, h4, h5, h6, h7, h8, h9, h10, h11, h12, h13] at hinner
  simp [makeRequest, alwaysRedirectEnv, requestIo, catchResponse,
        w301, mkRespHeaders, bodyExpected, buildPath, formulateBody, urlparse, urlunparse,
        twoSlashes, oneSlash,
        splitAtFirst, takeUntilAny, schemeChar, lowerChar, lowerStr, ciFind, ciStore,
        ciUpdate, dictMerge, cookieStr, dataTruthy, filesTruthy, jsonTruthy, pyInt,
        pyStrip, dropSpaceLeft, isPySpace, splitParams, loopSentReq, loop301Core,
        authHandlerPre, authHandlerPostGetAuth, authHandlerPostCheckRetry, redirectStep,
        getNewSock, hmr2, h1, h2, h3, h4, h5, h6, h7, h8, h9, h10, h11, h12, h13, hinner]

/-- The connection packaging at the end of `make_request`: a streaming
final state returns no connection, a non-streaming one returns the
current socket. -/
theorem packageConn_conn (red : Bool) (r0 : Resp) (s6 : ReqState)
    (c : Option Nat) (r : Resp) (s' : ReqState)
    (h : packageConn red r0 s6 = .ok (c, r) s') :
    (s'.streaming = true → c = none) ∧ (s'.streaming = false → c = some s'.sock) := by
  simp only [packageConn] at h
  split at h <;> split at h <;>
    (injection h with h1 h2; injection h1 with hc hr; subst hc; subst h2; rename_i hstr;
     exact ⟨fun ht => by first | rfl | exact absurd ht hstr,
            fun hf => by first | rfl | (rw [hstr] at hf; exact Bool.noConfusion hf)⟩)

/-! ## Claim theorems -/

/-- C1: the claim says the initial scheme/authority, once set at the
first attempt, never change for the remainder of the exchange.  The code
violates it: `_redirect` re-issues via `self.make_request()` with the
default `redirect=False`, so lines 126-128 overwrite
`initial_scheme`/`initial_netloc` with the redirect target's origin.  In
the `http://foo.com/a → 301 → http://bar.com/b` exchange the truncated
run (fuel 1, stopped at the re-issue) shows the first attempt set
`foo.com`, while the completed exchange ends with the baseline rewritten
to `bar.com`. -/
theorem c1_initialOriginOverwrittenOnRedirect :
    (stateOf (makeRequest crossEnv 1 false (initState "GET" "http://foo.com/a" "80"))).initialNetloc
      = some "foo.com" ∧
    errOf crossRun = none ∧
    (okOf crossRun).map (fun p => p.2.core.statusCode) = some 200 ∧
    (stateOf crossRun).history.map (fun c => c.statusCode) = [301] ∧
    (stateOf crossRun).initialScheme = some "http" ∧
    (stateOf crossRun).initialNetloc = some "bar.com" :=
  ⟨rfl, rfl, rfl, rfl, rfl, rfl⟩

/-- C2: the claim says a cross-base-domain absolute redirect with an
authentication strategy and `auth_off_domain` unset suppresses the
re-issue and returns the in-flight 3xx.  The code violates it:
`allow_redirect = self._location_auth_protect(location)` is never
awaited, the coroutine object is truthy, and the redirect proceeds — the
exchange `https://www.foo.com/a → 301 → https://www.evil.org/b` with a
pre-response auth strategy completes with the 200 from the second
request, and the `Authorization` header is sent to the off-domain host.
With `auth_off_domain` set the behaviour is identical. -/
theorem c2_offDomainAuthRedirectProceeds :
    (okOf leakRun).map (fun p => p.2.core.statusCode) = some 200 ∧
    (stateOf leakRun).attempt = 2 ∧
    (stateOf leakRun).sentRequests.map
        (fun r => (ciFind r.headers "Host", ciFind r.headers "Authorization"))
      = [(some "www.foo.com", some "secret"), (some "www.evil.org", some "secret")] ∧
    (okOf leakRunOffDomain).map (fun p => p.2.core.statusCode) = some 200 ∧
    (stateOf leakRunOffDomain).attempt = 2 :=
  ⟨rfl, rfl, rfl, rfl, rfl⟩

/-- C3: the claim says two consecutive 401s under a post-response auth
strategy return the second 401 with exactly one prior response in its
history.  The code performs exactly one retry (two requests), but
`_auth_handler_post_check_retry` returns the retry's
`(connection, response)` tuple un-unpacked, so `_redirect` raises
`AttributeError` on `response_obj.status_code` and the exchange crashes
instead of returning the second 401. -/
theorem c3_postAuthRetryCrashes :
    errOf doubleUnauthorizedRun = some PyErr.attributeError ∧
    (stateOf doubleUnauthorizedRun).attempt = 2 ∧
    (stateOf doubleUnauthorizedRun).history.map (fun c => c.statusCode) = [401] ∧
    (stateOf doubleUnauthorizedRun).authAttempted = false :=
  ⟨rfl, rfl, rfl, rfl⟩

/-- C4: for every non-negative budget `N`, a server answering every
attempt of a non-HEAD exchange with a redirect-eligible 3xx makes the
exchange fail with `TooManyRedirects` on the `(N+2)`th attempt and never
later: exactly `s.attempt + N + 2` requests have been issued when the
error is raised, so no request beyond the failing attempt goes out, and
the raised error is the bare `TooManyRedirects` value, carrying no
response. -/
theorem c4_tooManyRedirectsAtBudgetPlusTwo (n : Nat) :
    ∀ (extra : Nat) (s : ReqState), LoopShape s → s.maxRedirects = (n : Int) →
    errOf (makeRequest alwaysRedirectEnv (extra + (n + 2)) false s) = some PyErr.tooManyRedirects ∧
    (stateOf (makeRequest alwaysRedirectEnv (extra + (n + 2)) false s)).attempt = s.attempt + (n + 2) := by
  induction n with
  | zero =>
    intro extra s hs hmr
    have hshop := loopShapeHop s hs
    have hmrhop : (hopState s).maxRedirects < 0 := by simp [hopState]; omega
    have hb := c4_base extra (hopState s) hshop hmrhop
    have hin := errEq _ _ hb.1
    have hstep := c4_step (extra + 1) s hs (by omega) _ _ hin
    have hfe : extra + (0 + 2) = extra + 1 + 1 := by omega
    rw [hfe, hstep]
    refine ⟨rfl, ?_⟩
    have h2a := hb.2
    simp only [stateOf] at h2a ⊢
    simp only [hopState] at h2a ⊢
    omega
  | succ n ih =>
    intro extra s hs hmr
    have hshop := loopShapeHop s hs
    have hmrhop : (hopState s).maxRedirects = (n : Int) := by simp [hopState]; omega
    have hIH := ih extra (hopState s) hshop hmrhop
    have hin := errEq _ _ hIH.1
    have hstep := c4_step (extra + (n + 2)) s hs (by omega) _ _ hin
    have hfe : extra + (n + 1 + 2) = extra + (n + 2) + 1 := by omega
    rw [hfe, hstep]
    refine ⟨rfl, ?_⟩
    have h2a := hIH.2
    simp only [stateOf] at h2a ⊢
    simp only [hopState] at h2a ⊢
    omega

/-- Witness for C4 at budget 1: the exchange fails with
`TooManyRedirects` on attempt 3. -/
theorem c4_witness :
    LoopShape c4start ∧
    errOf (makeRequest alwaysRedirectEnv (0 + (1 + 2)) false c4start) = some PyErr.tooManyRedirects ∧
    (stateOf (makeRequest alwaysRedirectEnv (0 + (1 + 2)) false c4start)).attempt = c4start.attempt + (1 + 2) :=
  have hs : LoopShape c4start :=
    ⟨rfl, rfl, rfl, rfl, rfl, rfl, rfl, rfl, rfl, rfl, rfl, rfl, rfl⟩
  have hmr : c4start.maxRedirects = ((1 : Nat) : Int) := rfl
  ⟨hs, (c4_tooManyRedirectsAtBudgetPlusTwo 1 0 c4start hs hmr).1,
       (c4_tooManyRedirectsAtBudgetPlusTwo 1 0 c4start hs hmr).2⟩

/-- C5 counterexample: the claim says a streaming-mode response outside
200-299 buffers its body exactly as in the non-streaming case.  On the
same 404 wire input the streaming-mode consumer returns an empty body
while the non-streaming consumer buffers `abc` — they differ. -/
theorem c5_counter_streaming404NotBuffered :
    (okOf (catchResponse catchStateStream w404)).map (fun p => p.1.core.body) = some "" ∧
    (okOf (catchResponse catchState w404)).map (fun p => p.1.core.body) = some "abc" ∧
    (okOf (catchResponse catchStateStream w404)).map (fun p => p.1.core.body) ≠
      (okOf (catchResponse catchState w404)).map (fun p => p.1.core.body) :=
  ⟨rfl, rfl, by decide⟩

/-- C5 amended: streaming consumption is entered only for status codes
in [200, 300); for a response outside that range with streaming
requested and a body expected, the source's `elif` arm does nothing —
the response is returned with an empty, non-streaming body and the body
events are left unconsumed on the wire (they are not buffered). -/
theorem c5_streamingGate (s : ReqState) (w : WireResponse) (r : Resp)
    (lv : List BodyEvent) (s' : ReqState)
    (h : catchResponse s w = .ok (r, lv) s') (h0 : s.streaming = false) :
    (s'.streaming = true → 199 < w.statusCode ∧ w.statusCode < 300) ∧
    (s.stream = true → s.callback = false →
      bodyExpected (mkRespHeaders w.headers) = .ok true →
      ¬ (199 < w.statusCode ∧ w.statusCode < 300) →
      r.core.body = "" ∧ r.core.bodyIsStream = false ∧ lv = w.events ∧ s'.streaming = false) := by
  simp only [catchResponse] at h
  repeat' split at h
  any_goals exact RunResult.noConfusion h
  all_goals
    injection h with hA hB
    injection hA with hr hlv
    subst hB
    subst hr
    subst hlv
  all_goals refine ⟨fun ht => ?_, fun hstream hcb hbody hnot2xx => ?_⟩
  all_goals simp_all

/-- Witness for C5 at the streaming 404: the hypotheses hold and the
body comes back empty with the wire events untouched. -/
theorem c5_witness :
    catchResponse catchStateStream w404 = .ok (c5val.1, c5val.2) c5state ∧
    catchStateStream.streaming = false ∧
    ((c5val.1).core.body = "" ∧ (c5val.1).core.bodyIsStream = false ∧
      c5val.2 = w404.events ∧ c5state.streaming = false) :=
  have h : catchResponse catchStateStream w404 = .ok (c5val.1, c5val.2) c5state := rfl
  ⟨h, rfl, (c5_streamingGate _ _ _ _ _ h rfl).2 rfl rfl rfl (by decide)⟩

/-- C6: the claim says a response with neither a positive
`Content-Length` nor `Transfer-Encoding: chunked` yields an empty-bodied
response after consuming exactly one end-of-message event, and that
missing headers never raise.  The code violates the second half: when
`content-length` is absent, the `transfer-encoding` lookup inside the
`except KeyError` block is unguarded, so a response carrying neither
header raises an uncaught `KeyError`.  With `Content-Length: 0` present
the claimed behaviour does hold: empty body, the single end-of-message
event consumed. -/
theorem c6_missingHeadersRaiseKeyError :
    errOf (catchResponse catchState wBare) = some PyErr.keyError ∧
    (okOf (catchResponse catchState w200)).map (fun p => (p.1.core.body, p.2)) = some ("", []) :=
  ⟨rfl, rfl⟩

/-- C7: the claim says a readable file part's `Content-Type` is the
MIME type guessed from the file name, with `application/octet-stream`
only when the type is unguessable.  The code violates it: `_multipart`
tests `mime_type[1]` — the *encoding* slot of `guess_type`'s
`(type, encoding)` pair — so `a.png`, whose type is guessable
(`image/png`) but whose encoding slot is `None`, is emitted as
`application/octet-stream`.  The `Content-Disposition` with part name
and basename filename is as claimed. -/
theorem c7_filePartContentTypeIgnoresGuessedType :
    pngGuess "a.png" = (some "image/png", none) ∧
    multipart pngFs pngGuess "BNDRY" [("file", .str "a.png")] =
      .ok ("--BNDRY\r\nContent-Disposition: form-data; name=\"file\"; filename=\"a.png\"; Content-Type: application/octet-stream\r\n\r\nPNGDATA\r\n--BNDRY--\r\n") :=
  ⟨rfl, rfl⟩

/-- C8: encoding `{"a": "x y", "b": [1, 2]}` in form-body mode yields
exactly `a=x+y&b=1&b=2` — order preserved, whitespace collapsed to `+`,
one pair per list element; an interleaved falsy value (an empty string
or zero) is skipped without changing the rest. -/
theorem c8_queryCodecExample :
    dictToQuery [("a", .str "x y"), ("b", .list [.num 1, .num 2])] false false
      = "a=x+y&b=1&b=2" ∧
    dictToQuery [("a", .str "x y"), ("z", .str ""), ("zero", .num 0),
                 ("b", .list [.num 1, .num 2])] false false
      = "a=x+y&b=1&b=2" :=
  ⟨rfl, rfl⟩

/-- C9 counterexample: the claim says the cookie mapping `a=1, b=2`
serializes to exactly `a=1; b=2`.  The code's `cookie_str[:-1]` trims
only the final character (the space), leaving the semicolon. -/
theorem c9_counter_cookieHeaderValue :
    cookieStr [("a", "1"), ("b", "2")] ≠ "a=1; b=2" := by
  decide

/-- C9 amended: the outgoing headers contain a single `Cookie` header
whose value is the `name=value` pairs each followed by `'; '` with only
the final space trimmed: the mapping `a=1, b=2` yields `a=1; b=2;`
(trailing semicolon kept). -/
theorem c9_cookieHeaderTrailingSemicolon :
    cookieStr [("a", "1"), ("b", "2")] = "a=1; b=2;" ∧
    (stateOf cookieRun).sentRequests.map
        (fun r => r.headers.filter (fun h => lowerStr h.1 = "cookie"))
      = [[("Cookie", "a=1; b=2;")]] :=
  ⟨rfl, rfl⟩

/-- C10: whenever `make_request` returns, the connection component of
the returned pair is `None` exactly when the exchange's streaming flag
got set (the live socket is withheld from the pool), and is the
exchange's current socket otherwise. -/
theorem c10_streamingWithholdsConnection (env : Env) (fuel : Nat) (red : Bool)
    (s : ReqState) (c : Option Nat) (r : Resp) (s' : ReqState)
    (h : makeRequest env fuel red s = .ok (c, r) s') :
    (s'.streaming = true → c = none) ∧ (s'.streaming = false → c = some s'.sock) := by
  cases fuel with
  | zero => exact RunResult.noConfusion h
  | succ fuel =>
    simp only [makeRequest] at h
    split at h
    · exact RunResult.noConfusion h
    · split at h
      · exact RunResult.noConfusion h
      · exact packageConn_conn _ _ _ _ _ _ h

/-- Witness for C10 on a plain one-attempt exchange: the run returns
`ok`, is not streaming, and the returned connection is the state's
socket. -/
theorem c10_witness :
    makeRequest plainEnv 1 false (initState "GET" "http://foo.com/a" "80")
      = .ok (c10conn, c10resp) c10state ∧
    c10state.streaming = false ∧ c10conn = some c10state.sock :=
  have h : makeRequest plainEnv 1 false (initState "GET" "http://foo.com/a" "80")
      = .ok (c10conn, c10resp) c10state := rfl
  ⟨h, rfl, (c10_streamingWithholdsConnection plainEnv 1 false
      (initState "GET" "http://foo.com/a" "80") c10conn c10resp c10state h).2 rfl⟩

end Asks
